import Mathlib

/-!
Shallow embedding of the gdrive-rag-fe client (TypeScript/React) for checking
its natural-language specification.  Each definition mirrors one function of
the source; machine integers are modelled as `Int`/`Nat`, JavaScript's
`undefined` as `Option`, truthiness tests as explicit comparisons with the
falsy values (`0`, `""`, `none`), and asynchronous effects as explicit state
passing.
-/

/-- The normalized error shape produced by the response interceptor in
`src/services/api.ts` (`ApiError`): `{message, code, details}`. -/
structure ApiError where
  message : String
  code : String
  details : Option String
  deriving Repr, DecidableEq

/-- The test `lastError.code && lastError.code.startsWith('4')` from
`ApiService.retryRequest` (api.ts:306): the code string is truthy (non-empty)
and starts with the character `4` (for the one-character pattern `"4"`,
`startsWith` holds exactly when the first character is `4`). -/
def isClientErrorCode (c : String) : Bool :=
  match c.data with
  | [] => false
  | ch :: _ => ch = '4'

/-- JavaScript's `String.prototype.trim`: strips whitespace from both ends. -/
def jsTrim (s : String) : String :=
  ⟨List.reverse (List.dropWhile Char.isWhitespace
    (List.reverse (List.dropWhile Char.isWhitespace s.data)))⟩

/-- Observable outcome of one run of `ApiService.retryRequest`:
the value returned or error thrown (`Except.error none` models the
`throw lastError!` on an uninitialized variable, i.e. throwing `undefined`),
the number of times `requestFn` was invoked, and the list of backoff delays
awaited, in milliseconds, in order. -/
structure RetryTrace (T : Type) where
  result : Except (Option ApiError) T
  calls : Nat
  delays : List Nat

/-- The `for (let attempt = 1; attempt <= maxRetries; attempt++)` loop of
`ApiService.retryRequest` (api.ts:296-318).  `f n` is the outcome of the
`n`-th invocation of `requestFn`; `a` is the current attempt number,
`r` the number of attempts still allowed (`maxRetries - attempt + 1`),
`le` the saved `lastError`.  On a retryable failure with `attempt < maxRetries`
the loop awaits `Math.pow(2, attempt) * 1000` milliseconds. -/
def retryLoop {T : Type} (f : Nat → Except ApiError T) :
    Nat → Nat → Option ApiError → Nat → List Nat → RetryTrace T
  | _, 0, le, calls, delays => ⟨Except.error le, calls, delays⟩
  | a, r + 1, _, calls, delays =>
    match f a with
    | Except.ok v => ⟨Except.ok v, calls + 1, delays⟩
    | Except.error e =>
      if isClientErrorCode e.code then
        ⟨Except.error (some e), calls + 1, delays⟩
      else if 0 < r then
        retryLoop f (a + 1) r (some e) (calls + 1) (delays ++ [2 ^ a * 1000])
      else
        retryLoop f (a + 1) r (some e) (calls + 1) delays

/-- `ApiService.retryRequest(requestFn, maxRetries)` (api.ts:296-318).
`maxRetries` is an `Int` so that non-positive attempt counts are expressible;
the loop body runs `max maxRetries 0` times. -/
def retryRequest {T : Type} (f : Nat → Except ApiError T) (maxRetries : Int) :
    RetryTrace T :=
  retryLoop f 1 maxRetries.toNat none 0 []

/-- The raw axios error as seen by the response interceptor: `message`
(`""` models a missing/falsy message), `code` (`""` models `undefined`),
and the optional `error.response` with its `status` and `data`. -/
structure AxiosErrorModel where
  message : String
  code : String
  responseStatus : Option Nat
  responseData : Option String
  deriving Repr, DecidableEq

/-- Browser `localStorage`, restricted to what the client touches: a list of
key/value pairs. -/
abbrev LocalStorage := List (String × String)

/-- `localStorage.removeItem(k)`. -/
def removeItem (k : String) (store : LocalStorage) : LocalStorage :=
  store.filter (fun p => !(p.1 = k))

/-- `localStorage.getItem(k)` (`none` models `null`). -/
def getItem (k : String) (store : LocalStorage) : Option String :=
  (store.find? (fun p => p.1 = k)).map (fun p => p.2)

/-- `error?.response?.status >= 500` from api.ts:93 — `undefined >= 500` is
`false` in JavaScript. -/
def statusGE500 (e : AxiosErrorModel) : Bool :=
  match e.responseStatus with
  | some s => 500 ≤ s
  | none => false

/-- Result of the response interceptor's error branch: the normalized error
passed to `Promise.reject` and the local storage after side effects. -/
structure InterceptResult where
  apiError : ApiError
  store : LocalStorage

/-- The error branch of the response interceptor installed by
`ApiService.setupInterceptors` (api.ts:72-99): builds the base `ApiError`
from `error.message || …` and `error.code || 'UNKNOWN_ERROR'`, then rewrites
the message for 401/403/404/≥500 and removes `authToken` from local storage
on 401. -/
def responseInterceptorError (e : AxiosErrorModel) (store : LocalStorage) :
    InterceptResult :=
  let baseMessage := if e.message = "" then "An unexpected error occurred" else e.message
  let baseCode := if e.code = "" then "UNKNOWN_ERROR" else e.code
  if e.responseStatus = some 401 then
    ⟨⟨"Authentication required", baseCode, e.responseData⟩, removeItem "authToken" store⟩
  else if e.responseStatus = some 403 then
    ⟨⟨"Access forbidden", baseCode, e.responseData⟩, store⟩
  else if e.responseStatus = some 404 then
    ⟨⟨"Resource not found", baseCode, e.responseData⟩, store⟩
  else if statusGE500 e then
    ⟨⟨"Server error. Please try again later.", baseCode, e.responseData⟩, store⟩
  else
    ⟨⟨baseMessage, baseCode, e.responseData⟩, store⟩

/-- The `retry` predicate configured for queries on the `QueryClient` in
`App.tsx` (lines 22-28): a status in `[400, 500)` aborts retrying, otherwise
retry while `failureCount < 2`.  `none` models an error without a response
(`undefined >= 400` is `false`). -/
def queriesRetryPredicate (failureCount : Nat) (status : Option Nat) : Bool :=
  match status with
  | some s => if 400 ≤ s ∧ s < 500 then false else failureCount < 2
  | none => failureCount < 2

/-- The `retry` predicate configured for mutations on the `QueryClient` in
`App.tsx` (lines 34-40). -/
def mutationsRetryPredicate (failureCount : Nat) (status : Option Nat) : Bool :=
  match status with
  | some s => if 400 ≤ s ∧ s < 500 then false else failureCount < 1
  | none => failureCount < 1

/-- `DocumentListRequest` from the client's type declarations: all fields
optional (`undefined` modelled as `none`). -/
structure DocumentListRequest where
  folderId : Option String
  fileType : Option String
  limit : Option Int
  pageToken : Option String
  deriving Repr, DecidableEq

/-- JavaScript truthiness of an optional string: `undefined` and `""` are
falsy. -/
def truthyStr : Option String → Bool
  | some s => !(s = "")
  | none => false

/-- JavaScript truthiness of an optional number: `undefined` and `0` are
falsy. -/
def truthyNum : Option Int → Bool
  | some n => !(n = 0)
  | none => false

/-- Appends `(k, v)` when the guard is true, mirroring
`if (cond) params.append(k, v)` on a `URLSearchParams`. -/
def appendIf (cond : Bool) (k v : String) (ps : List (String × String)) :
    List (String × String) :=
  if cond then ps ++ [(k, v)] else ps

/-- The `URLSearchParams` built by `ApiService.getDocuments` (api.ts:188-197):
`folderId`, `fileType`, `limit`, `pageToken`, each appended only when truthy
(`request?.x` is `undefined` when `request` itself is absent). -/
def getDocumentsParams (request : Option DocumentListRequest) :
    List (String × String) :=
  let folderId := request.bind (fun r => r.folderId)
  let fileType := request.bind (fun r => r.fileType)
  let limit := request.bind (fun r => r.limit)
  let pageToken := request.bind (fun r => r.pageToken)
  appendIf (truthyStr pageToken) "pageToken" (pageToken.getD "")
    (appendIf (truthyNum limit) "limit" (toString (limit.getD 0))
      (appendIf (truthyStr fileType) "fileType" (fileType.getD "")
        (appendIf (truthyStr folderId) "folderId" (folderId.getD "") [])))

/-- The `URLSearchParams` built by `ApiService.getIndexedDocuments`
(api.ts:214-222): `limit`, `offset`, `fileType`, each appended only when
truthy. -/
def getIndexedDocumentsParams (limit offset : Option Int)
    (fileType : Option String) : List (String × String) :=
  appendIf (truthyStr fileType) "fileType" (fileType.getD "")
    (appendIf (truthyNum offset) "offset" (toString (offset.getD 0))
      (appendIf (truthyNum limit) "limit" (toString (limit.getD 0)) []))

/-- The `URLSearchParams` built by `ApiService.getFolders` (api.ts:224-231):
`parentId`, `limit`, each appended only when truthy. -/
def getFoldersParams (parentId : Option String) (limit : Option Int) :
    List (String × String) :=
  appendIf (truthyNum limit) "limit" (toString (limit.getD 0))
    (appendIf (truthyStr parentId) "parentId" (parentId.getD "") [])

/-- `params.toString()`: the serialized query string (values here never need
percent-encoding in the claims considered). -/
def paramsToString (ps : List (String × String)) : String :=
  String.intercalate "&" (ps.map (fun p => p.1 ++ "=" ++ p.2))

/-- Modelled from the spec: the `CacheEntry` of the Request Cache Layer
(§3, §4.2), whose implementation lives in `@tanstack/react-query`, not under
`src/`.  `data` is the cached payload, `isStale` records whether the entry
has been invalidated (or its staleness window elapsed). -/
structure CacheEntry where
  data : Option String
  isStale : Bool
  deriving Repr, DecidableEq

/-- Whether key `k` begins with the list `p` of key components (react-query's
prefix matching for `invalidateQueries({queryKey: p})`). -/
def keyBeginsWith : (p k : List String) → Bool
  | [], _ => true
  | _ :: _, [] => false
  | a :: p', b :: k' => a = b && keyBeginsWith p' k'

/-- Modelled from the spec: the process-wide request cache (§4.2), a
key-addressed store of `CacheEntry` values.  The react-query `QueryClient`
holding it is not under `src/`. -/
abbrev QueryCache := List (List String × CacheEntry)

/-- Modelled from the spec: `invalidate(prefix)` (§4.2) — marks every entry
whose key begins with `prefix` as stale, in place, deleting nothing. -/
def invalidateQueries (p : List String) (c : QueryCache) : QueryCache :=
  c.map (fun kv =>
    if keyBeginsWith p kv.1 then (kv.1, ⟨kv.2.data, true⟩) else kv)

/-- Looks up the entry cached under key `k`. -/
def cacheLookup (k : List String) (c : QueryCache) : Option CacheEntry :=
  (c.find? (fun kv => kv.1 = k)).map (fun kv => kv.2)

/-- Modelled from the spec: whether `get(key)` (§4.2) triggers a fetch — it
does exactly when no entry exists for the key or the entry is stale. -/
def getTriggersRefetch (c : QueryCache) (k : List String) : Bool :=
  match cacheLookup k c with
  | some e => e.isStale
  | none => true

/-- The `onSuccess` handler of `useIndexDocument` (useApi.ts:311-315): three
`invalidateQueries` calls with key prefixes `["documents"]`,
`["indexedDocuments"]`, `["searchStats"]`, in that order. -/
def useIndexDocumentOnSuccess (c : QueryCache) : QueryCache :=
  invalidateQueries ["searchStats"]
    (invalidateQueries ["indexedDocuments"]
      (invalidateQueries ["documents"] c))

/-- The `onSuccess` handler of `useBatchIndexDocuments` (useApi.ts:328-332). -/
def useBatchIndexDocumentsOnSuccess (c : QueryCache) : QueryCache :=
  invalidateQueries ["searchStats"]
    (invalidateQueries ["indexedDocuments"]
      (invalidateQueries ["documents"] c))

/-- The `onSuccess` handler of `useRemoveDocumentFromIndex`
(useApi.ts:345-349). -/
def useRemoveDocumentFromIndexOnSuccess (c : QueryCache) : QueryCache :=
  invalidateQueries ["searchStats"]
    (invalidateQueries ["indexedDocuments"]
      (invalidateQueries ["documents"] c))

/-- Message roles in the chat panel (`Message.type` in ChatPanel.tsx). -/
inductive MsgRole
  | user
  | assistant
  deriving Repr, DecidableEq

/-- The `Message` record of ChatPanel.tsx (lines 8-21), restricted to the
fields the claims mention (`sources`, `ragType` and `metadata` carry no
ordering information and are omitted). -/
structure ChatMessage where
  id : String
  role : MsgRole
  content : String
  isLoading : Bool
  deriving Repr, DecidableEq

/-- The RAG mode selector of ChatPanel.tsx (line 43). -/
inductive RagMode
  | standard
  | conversation
  | multiStep
  | summarize
  | compare
  deriving Repr, DecidableEq

/-- Context type passed to `ChatPanel` (`contextType` prop). -/
inductive CtxType
  | folder
  | document
  deriving Repr, DecidableEq

/-- The state of the feature-complete `ChatPanel` component
(ChatPanel.tsx lines 38-44): message list, input value, conversation id,
session id, RAG mode and conversation history, plus `pending`, which models
`ragMutation.isPending || conversationMutation.isPending || …` — whether any
of the five RAG mutations is in flight. -/
structure ChatState where
  messages : List ChatMessage
  inputValue : String
  conversationId : Option String
  sessionId : String
  conversationHistory : List (String × String)
  ragMode : RagMode
  pending : Bool
  deriving Repr, DecidableEq

/-- `updateLoadingMessage` (ChatPanel.tsx:106-117): maps over the message
list, replacing the content of every message with `isLoading` set and
clearing its flag; ids and positions are untouched. -/
def updateLoadingMessage (content : String) (msgs : List ChatMessage) :
    List ChatMessage :=
  msgs.map (fun m =>
    if m.isLoading then ⟨m.id, m.role, content, false⟩ else m)

/-- `handleSendMessage` (ChatPanel.tsx:140-220).  `ts` is `Date.now()` at the
time of the call (used for the generated message ids); `contextId`,
`contextType` and `documentIds` are the component props.  Returns the
component state after the synchronous part of the handler: the guard, the
append of the user message and the loading placeholder, the input reset, and
the dispatch (which either starts a mutation — `pending := true` — or, for
`summarize`/`compare` without an adequate selection, resolves the placeholder
immediately). -/
def handleSendMessage (s : ChatState) (content : String) (ts : Nat)
    (mode : Option RagMode) (contextId : Option String)
    (contextType : Option CtxType) (documentIds : List String) : ChatState :=
  if jsTrim content = "" ∨ s.pending then s
  else
    let currentMode := mode.getD s.ragMode
    let userMessage : ChatMessage :=
      ⟨"user-" ++ toString ts, MsgRole.user, jsTrim content, false⟩
    let loadingMessage : ChatMessage :=
      ⟨"assistant-" ++ toString ts, MsgRole.assistant, "", true⟩
    let appended := s.messages ++ [userMessage, loadingMessage]
    let s1 : ChatState :=
      ⟨appended, "", s.conversationId, s.sessionId, s.conversationHistory,
        s.ragMode, s.pending⟩
    match currentMode with
    | RagMode.summarize =>
      if contextId.isSome ∧ contextType = some CtxType.document then
        ⟨s1.messages, s1.inputValue, s1.conversationId, s1.sessionId,
          s1.conversationHistory, s1.ragMode, true⟩
      else
        ⟨updateLoadingMessage "Please select a document to summarize." s1.messages,
          s1.inputValue, s1.conversationId, s1.sessionId,
          s1.conversationHistory, s1.ragMode, s1.pending⟩
    | RagMode.compare =>
      if 2 ≤ documentIds.length then
        ⟨s1.messages, s1.inputValue, s1.conversationId, s1.sessionId,
          s1.conversationHistory, s1.ragMode, true⟩
      else
        ⟨updateLoadingMessage "Please select at least 2 documents to compare." s1.messages,
          s1.inputValue, s1.conversationId, s1.sessionId,
          s1.conversationHistory, s1.ragMode, s1.pending⟩
    | _ =>
      ⟨s1.messages, s1.inputValue, s1.conversationId, s1.sessionId,
        s1.conversationHistory, s1.ragMode, true⟩

/-- The `onSuccess` path of the RAG mutations in ChatPanel.tsx (lines 50-104):
the loading placeholder is resolved in place via `updateLoadingMessage`, the
`(question, answer)` pair is appended to the conversation history, the
conversation id is updated when the response carries one, and the mutation
stops being pending. -/
def resolveSuccess (s : ChatState) (question answer : String)
    (convId : Option String) : ChatState :=
  ⟨updateLoadingMessage answer s.messages, s.inputValue,
    (match convId with | some c => some c | none => s.conversationId),
    s.sessionId, s.conversationHistory ++ [(question, answer)], s.ragMode,
    false⟩

/-- The `onError` path of the RAG mutations in ChatPanel.tsx: the placeholder
is resolved in place with an apology message. -/
def resolveError (s : ChatState) (errMessage : String) : ChatState :=
  ⟨updateLoadingMessage ("Sorry, I encountered an error: " ++ errMessage)
      s.messages,
    s.inputValue, s.conversationId, s.sessionId, s.conversationHistory,
    s.ragMode, false⟩

/-- The initial state of a freshly mounted `ChatPanel` (ChatPanel.tsx:38-44);
`ts0` is the `Date.now()` used for the generated session id. -/
def initialChatState (ts0 : Nat) : ChatState :=
  ⟨[], "", none, "session-" ++ toString ts0, [], RagMode.standard, false⟩

/-- A search result, restricted to the identity used for render keys
(`SearchResult.id`). -/
structure SearchResult where
  id : String
  deriving Repr, DecidableEq

/-- The effect `useEffect(() => { setVisibleResults(results) }, [results])`
of `ResultsList` (ResultsList.tsx:36-38): whenever the `results` prop
changes, the visible list becomes the new prop value; the previous visible
list is discarded wholesale. -/
def updateVisibleResults (_previous results : List SearchResult) :
    List SearchResult :=
  results

/-- The render keys of `ResultsList` (ResultsList.tsx:157):
`` `${result.id}-${index}` `` over the visible results in order. -/
def renderKeys (rs : List SearchResult) : List String :=
  rs.enum.map (fun p => p.2.id ++ "-" ++ toString p.1)

/-- The context-selection state of `MainApp` (src/unnamed/part_000,
lines 41-52), restricted to the fields the scope-filter claims mention. -/
structure MainAppState where
  searchQuery : String
  selectedFolderId : Option String
  selectedDocumentId : Option String
  showSearchResults : Bool
  deriving Repr, DecidableEq

/-- `handleFolderSelect` (part_000:82-85): selects the folder and clears any
selected document. -/
def handleFolderSelect (s : MainAppState) (folderId : String) : MainAppState :=
  ⟨s.searchQuery, some folderId, none, s.showSearchResults⟩

/-- `handleDocumentSelect` (part_000:87-90): selects the document and clears
any selected folder. -/
def handleDocumentSelect (s : MainAppState) (documentId : String) :
    MainAppState :=
  ⟨s.searchQuery, none, some documentId, s.showSearchResults⟩

/-- `handleSearch` (part_000:71-80): records the query, shows the results
panel, and overwrites a context id only when the corresponding argument is
truthy. -/
def mainAppHandleSearch (s : MainAppState) (query : String)
    (folderId documentId : Option String) : MainAppState :=
  ⟨query,
    (if truthyStr folderId then folderId else s.selectedFolderId),
    (if truthyStr documentId then documentId else s.selectedDocumentId),
    true⟩

/-- `handleBackToChat` (part_000:102-105). -/
def handleBackToChat (s : MainAppState) : MainAppState :=
  ⟨"", s.selectedFolderId, s.selectedDocumentId, false⟩

/-- The user actions of `MainApp` that touch the search/context state.  In
the component as wired, `SearchBar` receives no `selectedFolderId` /
`selectedDocumentId` props, so every `search` action it emits carries
`none` for both ids (part_000:143-146 with SearchBar.tsx:59-63). -/
inductive MainAppAction
  | folderSelect (folderId : String)
  | documentSelect (documentId : String)
  | search (query : String) (folderId documentId : Option String)
  | backToChat
  deriving Repr, DecidableEq

/-- One step of `MainApp`'s state under a user action. -/
def mainAppStep (s : MainAppState) : MainAppAction → MainAppState
  | MainAppAction.folderSelect f => handleFolderSelect s f
  | MainAppAction.documentSelect d => handleDocumentSelect s d
  | MainAppAction.search q fid did => mainAppHandleSearch s q fid did
  | MainAppAction.backToChat => handleBackToChat s

/-- An action as `MainApp` actually emits it: search actions carry no
explicit context ids (the `SearchBar` instance has no selection props). -/
def wiredAction : MainAppAction → Prop
  | MainAppAction.search _ fid did => fid = none ∧ did = none
  | _ => True

/-- The initial `MainApp` state (all `useState` initializers, part_000:41-52). -/
def initialMainAppState : MainAppState :=
  ⟨"", none, none, false⟩

/-- The JSON body of the search request that `MainApp`'s `useSearch` issues:
`apiService.search` (api.ts:103-113) posts `{query, ...options}` where
`options = {folderId: selectedFolderId, documentId: selectedDocumentId,
limit: 20}` (part_000:58-68); fields whose value is `undefined` are dropped
from the serialized JSON body. -/
def mainAppSearchBody (s : MainAppState) : List (String × String) :=
  [("query", s.searchQuery)]
    ++ (match s.selectedFolderId with
        | some f => [("folderId", f)]
        | none => [])
    ++ (match s.selectedDocumentId with
        | some d => [("documentId", d)]
        | none => [])
    ++ [("limit", "20")]

/-- The `folderId` option of the keyword-search request in `SearchPage`
(App.tsx:63-73): present exactly when the selected context is a folder.
The keyword request built there has no document field at all. -/
def searchPageKeywordFolderId (ctx : Option (CtxType × String)) :
    Option String :=
  match ctx with
  | some (CtxType.folder, id) => some id
  | _ => none

/-- The `documentIds` option of the semantic-search request in `SearchPage`
(App.tsx:80-92): present exactly when the selected context is a document. -/
def searchPageSemanticDocumentIds (ctx : Option (CtxType × String)) :
    Option (List String) :=
  match ctx with
  | some (CtxType.document, id) => some [id]
  | _ => none

/-- A concrete 4xx-normalized error, used as a witness input. -/
def clientError404 : ApiError :=
  ⟨"Resource not found", "404", none⟩

/-- An operation whose every attempt fails with `clientError404`. -/
def always404 : Nat → Except ApiError Unit :=
  fun _ => Except.error clientError404

/-- A concrete 5xx-normalized (retryable) error, used as a witness input. -/
def serverError500 : ApiError :=
  ⟨"Server error. Please try again later.", "500", none⟩

/-- An operation whose every attempt fails with `serverError500`. -/
def always500 : Nat → Except ApiError Unit :=
  fun _ => Except.error serverError500

/-- Concrete search results for the pagination scenario of the spec
(page 1 = `[A, B, C]`, page 2 = `[C, D]`). -/
def resA : SearchResult := ⟨"A"⟩

/-- Search result `B` of the pagination scenario. -/
def resB : SearchResult := ⟨"B"⟩

/-- Search result `C` of the pagination scenario (present on both pages). -/
def resC : SearchResult := ⟨"C"⟩

/-- Search result `D` of the pagination scenario. -/
def resD : SearchResult := ⟨"D"⟩

/-- A concrete request cache holding one entry for each listing operation the
indexing mutations must invalidate, plus an unrelated `health` entry. -/
def sampleCache : QueryCache :=
  [(["documents", "q1"], ⟨some "docs", false⟩),
   (["indexedDocuments", "10"], ⟨some "idx", false⟩),
   (["searchStats"], ⟨some "stats", false⟩),
   (["health"], ⟨some "ok", false⟩)]

/-- C2: for every request whose failure is normalized to a 4xx-class client
error, the retry helper performs exactly one attempt and rethrows the
normalized error immediately: no delay is inserted and no further call to the
request function is made.  The final conjunct covers the react-query retry
predicates configured in `App.tsx`, which likewise never retry a 4xx
status. -/
theorem retryAbortsOnClientError {T : Type} (f : Nat → Except ApiError T)
    (m : Int) (e : ApiError) (fc : Nat) (st : Nat)
    (hm : 1 ≤ m) (hf : f 1 = Except.error e)
    (hcode : isClientErrorCode e.code = true)
    (hst : 400 ≤ st ∧ st < 500) :
    (retryRequest f m).result = Except.error (some e) ∧
    (retryRequest f m).calls = 1 ∧
    (retryRequest f m).delays = [] ∧
    queriesRetryPredicate fc (some st) = false ∧
    mutationsRetryPredicate fc (some st) = false := by
  obtain ⟨r, hr⟩ : ∃ r, m.toNat = r + 1 := ⟨m.toNat - 1, by omega⟩
  unfold retryRequest
  rw [hr]
  simp [retryLoop, hf, hcode, queriesRetryPredicate, mutationsRetryPredicate,
    hst.1, hst.2]

/-- Witness for `retryAbortsOnClientError` at a concrete operation failing
with a 404-normalized error and a 404 status for the query-client
predicates. -/
theorem retryAbortsOnClientErrorWitness :
    (retryRequest always404 3).result = Except.error (some clientError404) ∧
    (retryRequest always404 3).calls = 1 ∧
    (retryRequest always404 3).delays = [] ∧
    queriesRetryPredicate 0 (some 404) = false ∧
    mutationsRetryPredicate 0 (some 404) = false :=
  retryAbortsOnClientError always404 3 clientError404 0 404
    (by norm_num) rfl (by decide) (by omega)

/-- C8: calling the retry helper with a maximum attempt count of `0` or less
never invokes the supplied request function and throws an undefined error
value (`Except.error none`), because the attempt loop body is never entered
and `lastError` is never initialized. -/
theorem retryNonpositiveMaxNoCall {T : Type} (f : Nat → Except ApiError T)
    (m : Int) (hm : m ≤ 0) :
    (retryRequest f m).calls = 0 ∧
    (retryRequest f m).result = Except.error none ∧
    (retryRequest f m).delays = [] := by
  have h0 : m.toNat = 0 := by omega
  unfold retryRequest
  rw [h0]
  exact ⟨rfl, rfl, rfl⟩

/-- Witness for `retryNonpositiveMaxNoCall` at `maxRetries = 0`. -/
theorem retryNonpositiveMaxNoCallWitness :
    (retryRequest always500 0).calls = 0 ∧
    (retryRequest always500 0).result = Except.error none ∧
    (retryRequest always500 0).delays = [] :=
  retryNonpositiveMaxNoCall always500 0 (by norm_num)

/-- C9: invoking the chat send handler while any RAG mutation is pending, or
with content that is empty after trimming, leaves the entire chat state
(message list, input value, conversation id, session id, conversation
history, RAG mode, pending flag) unchanged. -/
theorem chatSendGuardNoOp (s : ChatState) (content : String) (ts : Nat)
    (mode : Option RagMode) (contextId : Option String)
    (contextType : Option CtxType) (documentIds : List String)
    (h : jsTrim content = "" ∨ s.pending = true) :
    handleSendMessage s content ts mode contextId contextType documentIds
      = s := by
  unfold handleSendMessage
  rw [if_pos]
  rcases h with h | h
  · exact Or.inl h
  · exact Or.inr (by rw [h])

/-- Witness for `chatSendGuardNoOp`: sending whitespace-only content in the
initial state is a no-op. -/
theorem chatSendGuardNoOpWitness :
    handleSendMessage (initialChatState 7) "   " 9 none none none []
      = initialChatState 7 :=
  chatSendGuardNoOp (initialChatState 7) "   " 9 none none none []
    (Or.inl (by decide))

/-- C7: for every HTTP error response, the interceptor rejects with a
normalized `{message, code, details}` error whose message is determined by
the status — 401 ↦ authentication required, 403 ↦ access forbidden,
404 ↦ resource not found, any status ≥ 500 ↦ server error — and the
`authToken` entry of local storage is removed exactly when the status
is 401. -/
theorem interceptorStatusMapping (e : AxiosErrorModel) (store : LocalStorage)
    (s : Nat) (h : e.responseStatus = some s) :
    ((s = 401 →
        (responseInterceptorError e store).apiError.message
          = "Authentication required") ∧
      (s = 403 →
        (responseInterceptorError e store).apiError.message
          = "Access forbidden") ∧
      (s = 404 →
        (responseInterceptorError e store).apiError.message
          = "Resource not found") ∧
      (500 ≤ s →
        (responseInterceptorError e store).apiError.message
          = "Server error. Please try again later.")) ∧
    (responseInterceptorError e store).store
      = (if s = 401 then removeItem "authToken" store else store) := by
  unfold responseInterceptorError
  simp only [h, statusGE500, Option.some.injEq]
  by_cases h1 : s = 401
  · simp [h1]
  · by_cases h3 : s = 403
    · simp [h1, h3]
    · by_cases h4 : s = 404
      · simp [h1, h3, h4]
      · by_cases h5 : 500 ≤ s
        · simp [h1, h3, h4, h5]
        · simp [h1, h3, h4, h5]

/-- Witness for `interceptorStatusMapping` at a 401 response: the message
becomes the authentication-required one and `authToken` is removed. -/
theorem interceptorStatusMappingWitness :
    ((401 = 401 →
        (responseInterceptorError ⟨"boom", "ERR_BAD_REQUEST", some 401, none⟩
            [("authToken", "t"), ("theme", "dark")]).apiError.message
          = "Authentication required") ∧
      (401 = 403 →
        (responseInterceptorError ⟨"boom", "ERR_BAD_REQUEST", some 401, none⟩
            [("authToken", "t"), ("theme", "dark")]).apiError.message
          = "Access forbidden") ∧
      (401 = 404 →
        (responseInterceptorError ⟨"boom", "ERR_BAD_REQUEST", some 401, none⟩
            [("authToken", "t"), ("theme", "dark")]).apiError.message
          = "Resource not found") ∧
      (500 ≤ 401 →
        (responseInterceptorError ⟨"boom", "ERR_BAD_REQUEST", some 401, none⟩
            [("authToken", "t"), ("theme", "dark")]).apiError.message
          = "Server error. Please try again later.")) ∧
    (responseInterceptorError ⟨"boom", "ERR_BAD_REQUEST", some 401, none⟩
        [("authToken", "t"), ("theme", "dark")]).store
      = (if 401 = 401 then
          removeItem "authToken" [("authToken", "t"), ("theme", "dark")]
        else [("authToken", "t"), ("theme", "dark")]) :=
  interceptorStatusMapping ⟨"boom", "ERR_BAD_REQUEST", some 401, none⟩
    [("authToken", "t"), ("theme", "dark")] 401 rfl

/-- Membership in an `appendIf` chain: the pair is either in the tail list or
equal to the appended pair with the guard true. -/
theorem mem_appendIf {k v k' v' : String} {c : Bool}
    {ps : List (String × String)} :
    (k, v) ∈ appendIf c k' v' ps ↔
      (k, v) ∈ ps ∨ (c = true ∧ k = k' ∧ v = v') := by
  unfold appendIf
  split <;> simp_all

/-- C10: in the document-listing operations (`getDocuments`,
`getIndexedDocuments`, `getFolders`), a numeric parameter equal to `0` (or
absent) and an empty-string parameter (or absent one) are omitted from the
request query parameters, because presence is tested by truthiness; in
particular `limit = 0` and `offset = 0` produce requests whose query string
carries no `limit` or `offset` parameter at all. -/
theorem listingParamsOmitFalsy
    (fid ft pt : Option String) (l : Option Int)
    (l2 o2 : Option Int) (ft2 : Option String)
    (pid : Option String) (l3 : Option Int)
    (hl : l = some 0 ∨ l = none)
    (hl2 : l2 = some 0 ∨ l2 = none)
    (ho2 : o2 = some 0 ∨ o2 = none)
    (hl3 : l3 = some 0 ∨ l3 = none)
    (hfid : fid = some "" ∨ fid = none)
    (hpid : pid = some "" ∨ pid = none) :
    (∀ v, ("limit", v) ∉ getDocumentsParams (some ⟨fid, ft, l, pt⟩)) ∧
    (∀ v, ("folderId", v) ∉ getDocumentsParams (some ⟨fid, ft, l, pt⟩)) ∧
    (∀ v, ("limit", v) ∉ getIndexedDocumentsParams l2 o2 ft2) ∧
    (∀ v, ("offset", v) ∉ getIndexedDocumentsParams l2 o2 ft2) ∧
    (∀ v, ("limit", v) ∉ getFoldersParams pid l3) ∧
    (∀ v, ("parentId", v) ∉ getFoldersParams pid l3) := by
  have htl : truthyNum l = false := by
    rcases hl with h | h <;> simp [h, truthyNum]
  have htl2 : truthyNum l2 = false := by
    rcases hl2 with h | h <;> simp [h, truthyNum]
  have hto2 : truthyNum o2 = false := by
    rcases ho2 with h | h <;> simp [h, truthyNum]
  have htl3 : truthyNum l3 = false := by
    rcases hl3 with h | h <;> simp [h, truthyNum]
  have htfid : truthyStr fid = false := by
    rcases hfid with h | h <;> simp [h, truthyStr]
  have htpid : truthyStr pid = false := by
    rcases hpid with h | h <;> simp [h, truthyStr]
  refine ⟨fun v hv => ?_, fun v hv => ?_, fun v hv => ?_, fun v hv => ?_,
    fun v hv => ?_, fun v hv => ?_⟩ <;>
    simp only [getDocumentsParams, getIndexedDocumentsParams,
      getFoldersParams, Option.bind_some, mem_appendIf, List.not_mem_nil,
      or_false, false_or, htl, htl2, hto2, htl3, htfid, htpid] at hv <;>
    simp_all

/-- Witness for `listingParamsOmitFalsy`: `limit = 0`, `offset = 0`, an empty
`folderId` and an absent `parentId` leave no trace in the query
parameters. -/
theorem listingParamsOmitFalsyWitness :
    (∀ v, ("limit", v)
        ∉ getDocumentsParams (some ⟨some "", some "pdf", some 0, none⟩)) ∧
    (∀ v, ("folderId", v)
        ∉ getDocumentsParams (some ⟨some "", some "pdf", some 0, none⟩)) ∧
    (∀ v, ("limit", v) ∉ getIndexedDocumentsParams (some 0) (some 0) none) ∧
    (∀ v, ("offset", v) ∉ getIndexedDocumentsParams (some 0) (some 0) none) ∧
    (∀ v, ("limit", v) ∉ getFoldersParams none (some 0)) ∧
    (∀ v, ("parentId", v) ∉ getFoldersParams none (some 0)) :=
  listingParamsOmitFalsy (some "") (some "pdf") none (some 0) (some 0)
    (some 0) none none (some 0)
    (Or.inl rfl) (Or.inl rfl) (Or.inl rfl) (Or.inl rfl) (Or.inl rfl)
    (Or.inr rfl)

/-- `invalidateQueries` rewrites exactly the entry stored under a matching
key, marking it stale and keeping its data; non-matching keys are
untouched. -/
theorem cacheLookup_invalidateQueries (p k : List String) (c : QueryCache) :
    cacheLookup k (invalidateQueries p c)
      = if keyBeginsWith p k then
          (cacheLookup k c).map (fun e => ⟨e.data, true⟩)
        else cacheLookup k c := by
  induction c with
  | nil =>
    simp [cacheLookup, invalidateQueries]
  | cons hd tl ih =>
    by_cases hk : hd.1 = k
    · subst hk
      by_cases hm : keyBeginsWith p hd.1 = true
      · simp [cacheLookup, invalidateQueries, List.find?, hm]
      · simp only [Bool.not_eq_true] at hm
        simp [cacheLookup, invalidateQueries, List.find?, hm]
    · have h1 : cacheLookup k (invalidateQueries p (hd :: tl))
          = cacheLookup k (invalidateQueries p tl) := by
        by_cases hm : keyBeginsWith p hd.1 = true <;>
          simp [cacheLookup, invalidateQueries, List.find?, hm, hk]
      have h2 : cacheLookup k (hd :: tl) = cacheLookup k tl := by
        simp [cacheLookup, List.find?, hk]
      rw [h1, h2, ih]

/-- C3: after every successful indexing mutation (index a document, batch
index, or remove a document from the index), every cache entry whose key
begins with `documents`, `indexedDocuments` or `searchStats` is marked stale
in place (its data kept), so that a subsequent `get` on that key triggers a
refetch. -/
theorem indexingMutationsInvalidateListingCaches (c : QueryCache)
    (k : List String) (e : CacheEntry)
    (hk : cacheLookup k c = some e)
    (hpre : keyBeginsWith ["documents"] k = true
      ∨ keyBeginsWith ["indexedDocuments"] k = true
      ∨ keyBeginsWith ["searchStats"] k = true) :
    (cacheLookup k (useIndexDocumentOnSuccess c) = some ⟨e.data, true⟩ ∧
      getTriggersRefetch (useIndexDocumentOnSuccess c) k = true) ∧
    (cacheLookup k (useBatchIndexDocumentsOnSuccess c) = some ⟨e.data, true⟩ ∧
      getTriggersRefetch (useBatchIndexDocumentsOnSuccess c) k = true) ∧
    (cacheLookup k (useRemoveDocumentFromIndexOnSuccess c) = some ⟨e.data, true⟩ ∧
      getTriggersRefetch (useRemoveDocumentFromIndexOnSuccess c) k = true) := by
  have key : ∀ c' : QueryCache, cacheLookup k c' = some e →
      cacheLookup k (invalidateQueries ["searchStats"]
          (invalidateQueries ["indexedDocuments"]
            (invalidateQueries ["documents"] c'))) = some ⟨e.data, true⟩ := by
    intro c' hc'
    rw [cacheLookup_invalidateQueries, cacheLookup_invalidateQueries,
      cacheLookup_invalidateQueries]
    rcases hpre with h | h | h <;>
      · simp only [h, if_true]
        split <;> split <;> simp [hc']
  have hidx := key c hk
  refine ⟨⟨?_, ?_⟩, ⟨?_, ?_⟩, ⟨?_, ?_⟩⟩ <;>
    simp [useIndexDocumentOnSuccess, useBatchIndexDocumentsOnSuccess,
      useRemoveDocumentFromIndexOnSuccess, getTriggersRefetch, hidx]

/-- Witness for `indexingMutationsInvalidateListingCaches` on `sampleCache`
at the `["searchStats"]` key. -/
theorem indexingMutationsInvalidateListingCachesWitness :
    (cacheLookup ["searchStats"] (useIndexDocumentOnSuccess sampleCache)
        = some ⟨some "stats", true⟩ ∧
      getTriggersRefetch (useIndexDocumentOnSuccess sampleCache)
        ["searchStats"] = true) ∧
    (cacheLookup ["searchStats"] (useBatchIndexDocumentsOnSuccess sampleCache)
        = some ⟨some "stats", true⟩ ∧
      getTriggersRefetch (useBatchIndexDocumentsOnSuccess sampleCache)
        ["searchStats"] = true) ∧
    (cacheLookup ["searchStats"]
        (useRemoveDocumentFromIndexOnSuccess sampleCache)
        = some ⟨some "stats", true⟩ ∧
      getTriggersRefetch (useRemoveDocumentFromIndexOnSuccess sampleCache)
        ["searchStats"] = true) :=
  indexingMutationsInvalidateListingCaches sampleCache ["searchStats"]
    ⟨some "stats", false⟩ (by decide) (Or.inr (Or.inr (by decide)))

/-- One wired `MainApp` action preserves the property that at most one of
the two context filters is selected. -/
theorem mainAppStep_preserves_exclusive (s : MainAppState) (a : MainAppAction)
    (hw : wiredAction a)
    (hs : ¬(s.selectedFolderId.isSome ∧ s.selectedDocumentId.isSome)) :
    ¬((mainAppStep s a).selectedFolderId.isSome
        ∧ (mainAppStep s a).selectedDocumentId.isSome) := by
  cases a with
  | folderSelect f => simp [mainAppStep, handleFolderSelect]
  | documentSelect d => simp [mainAppStep, handleDocumentSelect]
  | search q fid did =>
    obtain ⟨h1, h2⟩ := hw
    subst h1
    subst h2
    simpa [mainAppStep, mainAppHandleSearch, truthyStr] using hs
  | backToChat => simpa [mainAppStep, handleBackToChat] using hs

/-- C5: the folder and document scope filters of `MainApp` are mutually
exclusive along every sequence of (wired) context-selection and search
actions; selecting a folder sets it and clears any selected document (and
vice versa), and the search request issued next after selecting folder `F`
carries `folderId = F` and no `documentId` field.  The last conjunct records
the same exclusivity for `SearchPage` in App.tsx: a folder context
contributes only the keyword `folderId` option, a document context only the
semantic `documentIds` option. -/
theorem contextFiltersMutuallyExclusive (acts : List MainAppAction)
    (s : MainAppState) (f d cf cd : String)
    (hw : ∀ a ∈ acts, wiredAction a) :
    ¬((acts.foldl mainAppStep initialMainAppState).selectedFolderId.isSome
        ∧ (acts.foldl mainAppStep
            initialMainAppState).selectedDocumentId.isSome) ∧
    ((handleFolderSelect s f).selectedFolderId = some f ∧
      (handleFolderSelect s f).selectedDocumentId = none ∧
      ("folderId", f) ∈ mainAppSearchBody (handleFolderSelect s f) ∧
      (∀ v, ("documentId", v) ∉ mainAppSearchBody (handleFolderSelect s f))) ∧
    ((handleDocumentSelect s d).selectedDocumentId = some d ∧
      (handleDocumentSelect s d).selectedFolderId = none ∧
      ("documentId", d) ∈ mainAppSearchBody (handleDocumentSelect s d) ∧
      (∀ v, ("folderId", v) ∉ mainAppSearchBody (handleDocumentSelect s d))) ∧
    (searchPageKeywordFolderId (some (CtxType.folder, cf)) = some cf ∧
      searchPageSemanticDocumentIds (some (CtxType.folder, cf)) = none ∧
      searchPageKeywordFolderId (some (CtxType.document, cd)) = none ∧
      searchPageSemanticDocumentIds (some (CtxType.document, cd))
        = some [cd]) := by
  refine ⟨?_, ?_, ?_, ?_⟩
  · have main : ∀ (l : List MainAppAction) (s0 : MainAppState),
        (∀ a ∈ l, wiredAction a) →
        ¬(s0.selectedFolderId.isSome ∧ s0.selectedDocumentId.isSome) →
        ¬((l.foldl mainAppStep s0).selectedFolderId.isSome
            ∧ (l.foldl mainAppStep s0).selectedDocumentId.isSome) := by
      intro l
      induction l with
      | nil => intro s0 _ hs0; simpa using hs0
      | cons a t ih =>
        intro s0 hwl hs0
        simp only [List.foldl_cons]
        exact ih (mainAppStep s0 a) (fun b hb => hwl b (List.mem_cons_of_mem a hb))
          (mainAppStep_preserves_exclusive s0 a (hwl a (List.mem_cons_self a t)) hs0)
    exact main acts initialMainAppState hw (by simp [initialMainAppState])
  · refine ⟨rfl, rfl, ?_, ?_⟩
    · simp [mainAppSearchBody, handleFolderSelect]
    · intro v
      simp [mainAppSearchBody, handleFolderSelect]
  · refine ⟨rfl, rfl, ?_, ?_⟩
    · simp [mainAppSearchBody, handleDocumentSelect]
    · intro v
      simp [mainAppSearchBody, handleDocumentSelect]
  · exact ⟨rfl, rfl, rfl, rfl⟩

/-- Witness for `contextFiltersMutuallyExclusive` on the concrete trace
select document `D`, select folder `F`, search. -/
theorem contextFiltersMutuallyExclusiveWitness :
    ¬(([MainAppAction.documentSelect "D", MainAppAction.folderSelect "F",
          MainAppAction.search "q" none none].foldl mainAppStep
            initialMainAppState).selectedFolderId.isSome
        ∧ ([MainAppAction.documentSelect "D", MainAppAction.folderSelect "F",
            MainAppAction.search "q" none none].foldl mainAppStep
              initialMainAppState).selectedDocumentId.isSome) ∧
    ((handleFolderSelect initialMainAppState "F").selectedFolderId
        = some "F" ∧
      (handleFolderSelect initialMainAppState "F").selectedDocumentId
        = none ∧
      ("folderId", "F")
        ∈ mainAppSearchBody (handleFolderSelect initialMainAppState "F") ∧
      (∀ v, ("documentId", v)
        ∉ mainAppSearchBody (handleFolderSelect initialMainAppState "F"))) ∧
    ((handleDocumentSelect initialMainAppState "D").selectedDocumentId
        = some "D" ∧
      (handleDocumentSelect initialMainAppState "D").selectedFolderId
        = none ∧
      ("documentId", "D")
        ∈ mainAppSearchBody (handleDocumentSelect initialMainAppState "D") ∧
      (∀ v, ("folderId", v)
        ∉ mainAppSearchBody (handleDocumentSelect initialMainAppState "D"))) ∧
    (searchPageKeywordFolderId (some (CtxType.folder, "F")) = some "F" ∧
      searchPageSemanticDocumentIds (some (CtxType.folder, "F")) = none ∧
      searchPageKeywordFolderId (some (CtxType.document, "D")) = none ∧
      searchPageSemanticDocumentIds (some (CtxType.document, "D"))
        = some ["D"]) :=
  contextFiltersMutuallyExclusive
    [MainAppAction.documentSelect "D", MainAppAction.folderSelect "F",
      MainAppAction.search "q" none none]
    initialMainAppState "F" "D" "F" "D"
    (by
      intro a ha
      rcases List.mem_cons.mp ha with rfl | ha
      · exact trivial
      rcases List.mem_cons.mp ha with rfl | ha
      · exact trivial
      rcases List.mem_cons.mp ha with rfl | ha
      · exact ⟨rfl, rfl⟩
      · exact absurd ha (List.not_mem_nil a))

/-- C6: for every chat send of non-empty trimmed content (with no mutation
pending), the user message and then an assistant placeholder with
`isLoading = true` are appended at the end of the message list;
`updateLoadingMessage` resolves the placeholder in place, preserving the
length of the list and the id and role at every position (never
removed-and-reinserted); a send requested while the previous reply is still
pending is discarded; and consequently two consecutive exchanges render in
the order `[user1, assistant1, user2, assistant2]`. -/
theorem chatTurnOrderStable
    (s : ChatState) (c : String) (ts : Nat) (mode : Option RagMode)
    (cid : Option String) (ct : Option CtxType) (dids : List String)
    (ts0 ts1 ts2 : Nat) (c1 c2 q1 q2 r1 r2 : String)
    (cv1 cv2 : Option String)
    (hc : ¬(jsTrim c = "")) (hp : s.pending = false)
    (hmode : mode = some RagMode.standard ∨ mode = some RagMode.conversation
      ∨ mode = some RagMode.multiStep)
    (h1 : ¬(jsTrim c1 = "")) (h2 : ¬(jsTrim c2 = "")) :
    ((handleSendMessage s c ts mode cid ct dids).messages
        = s.messages
          ++ [⟨"user-" ++ toString ts, MsgRole.user, jsTrim c, false⟩,
              ⟨"assistant-" ++ toString ts, MsgRole.assistant, "", true⟩] ∧
      (handleSendMessage s c ts mode cid ct dids).pending = true ∧
      (handleSendMessage s c ts mode cid ct dids).inputValue = "") ∧
    (∀ (content : String) (msgs : List ChatMessage),
      (updateLoadingMessage content msgs).length = msgs.length ∧
      ∀ i : Nat,
        ((updateLoadingMessage content msgs)[i]?).map ChatMessage.id
          = (msgs[i]?).map ChatMessage.id ∧
        ((updateLoadingMessage content msgs)[i]?).map ChatMessage.role
          = (msgs[i]?).map ChatMessage.role) ∧
    (handleSendMessage
        (handleSendMessage (initialChatState ts0) c1 ts1
          (some RagMode.standard) cid ct dids) c2 ts2
        (some RagMode.standard) cid ct dids
      = handleSendMessage (initialChatState ts0) c1 ts1
          (some RagMode.standard) cid ct dids) ∧
    ((resolveSuccess
        (handleSendMessage
          (resolveSuccess
            (handleSendMessage (initialChatState ts0) c1 ts1
              (some RagMode.standard) cid ct dids) q1 r1 cv1)
          c2 ts2 (some RagMode.standard) cid ct dids)
        q2 r2 cv2).messages.map (fun m => (m.role, m.content, m.isLoading))
      = [(MsgRole.user, jsTrim c1, false), (MsgRole.assistant, r1, false),
         (MsgRole.user, jsTrim c2, false),
         (MsgRole.assistant, r2, false)]) := by
  refine ⟨?_, ?_, ?_, ?_⟩
  · rcases hmode with hm | hm | hm <;> subst hm <;>
      simp [handleSendMessage, hc, hp]
  · intro content msgs
    have hmap : ∀ i : Nat, (updateLoadingMessage content msgs)[i]?
        = (msgs[i]?).map (fun m =>
            if m.isLoading then ⟨m.id, m.role, content, false⟩ else m) := by
      intro i
      simp [updateLoadingMessage, List.getElem?_map]
    refine ⟨by simp [updateLoadingMessage], fun i => ⟨?_, ?_⟩⟩ <;>
    · rw [hmap i]
      cases h : msgs[i]? with
      | none => rfl
      | some m =>
        simp only [Option.map_some']
        split <;> rfl
  · have key : ∀ (s' : ChatState), s'.pending = true →
        handleSendMessage s' c2 ts2 (some RagMode.standard) cid ct dids
          = s' := by
      intro s' hs'
      unfold handleSendMessage
      rw [if_pos (Or.inr hs')]
    have hpend : (handleSendMessage (initialChatState ts0) c1 ts1
        (some RagMode.standard) cid ct dids).pending = true := by
      simp [handleSendMessage, initialChatState, h1]
    exact key _ hpend
  · simp [handleSendMessage, initialChatState, resolveSuccess,
      updateLoadingMessage, h1, h2]

/-- Witness for `chatTurnOrderStable`: the concrete two-exchange conversation
"What is X?" / "And Y?" renders `[user1, assistant1, user2, assistant2]`. -/
theorem chatTurnOrderStableWitness :
    (resolveSuccess
        (handleSendMessage
          (resolveSuccess
            (handleSendMessage (initialChatState 0) "What is X?" 1
              (some RagMode.standard) none none []) "What is X?" "Reply one"
            none)
          "And Y?" 2 (some RagMode.standard) none none [])
        "And Y?" "Reply two" none).messages.map
          (fun m => (m.role, m.content, m.isLoading))
      = [(MsgRole.user, jsTrim "What is X?", false),
         (MsgRole.assistant, "Reply one", false),
         (MsgRole.user, jsTrim "And Y?", false),
         (MsgRole.assistant, "Reply two", false)] :=
  (chatTurnOrderStable (initialChatState 0) "Hi" 5 (some RagMode.standard)
    none none [] 0 1 2 "What is X?" "And Y?" "What is X?" "And Y?"
    "Reply one" "Reply two" none none (by decide) (by decide) (Or.inl rfl)
    (by decide) (by decide)).2.2.2

/-- Counterexample to C4: with page 1 = `[A, B, C]` and page 2 = `[C, D]`,
the `ResultsList` visible sequence after the new results prop arrives is
`[C, D]`, not the accumulated `[A, B, C, D]` the claim requires — the
component replaces the list wholesale instead of appending with
deduplication. -/
theorem paginationDedupCounterexample :
    (updateVisibleResults [resA, resB, resC] [resC, resD]).map SearchResult.id
      = ["C", "D"] ∧
    ¬((updateVisibleResults [resA, resB, resC] [resC, resD]).map
        SearchResult.id = ["A", "B", "C", "D"]) := by
  decide

/-- C4 (amended): when a subsequent page of search results is loaded, the
rendered sequence is replaced wholesale by the new page — the visible list
equals the latest `results` prop, render keys follow the new page's order,
folding any sequence of pages leaves exactly the last page, and an item of
the previous page absent from the new page is no longer rendered. -/
theorem resultsListReplacedByNewPage (p1 p2 : List SearchResult)
    (pages : List (List SearchResult)) :
    updateVisibleResults p1 p2 = p2 ∧
    renderKeys (updateVisibleResults p1 p2) = renderKeys p2 ∧
    pages.foldl updateVisibleResults [] = pages.getLastD [] ∧
    (∀ r : SearchResult, r ∈ p1 → r.id ∉ p2.map SearchResult.id →
      r.id ∉ (updateVisibleResults p1 p2).map SearchResult.id) := by
  refine ⟨rfl, rfl, ?_, ?_⟩
  · have main : ∀ (l : List (List SearchResult)) (init : List SearchResult),
        l.foldl updateVisibleResults init = l.getLastD init := by
      intro l
      induction l with
      | nil => intro init; rfl
      | cons h t ih =>
        intro init
        show List.foldl updateVisibleResults (updateVisibleResults init h) t
          = (h :: t).getLastD init
        rw [show updateVisibleResults init h = h from rfl, ih h,
          List.getLastD_cons]
    exact main pages []
  · intro r _ hnot
    simpa [updateVisibleResults] using hnot

/-- Witness for `resultsListReplacedByNewPage`: after page 2 = `[C, D]`
replaces page 1 = `[A, B, C]`, item `A` is no longer rendered. -/
theorem resultsListReplacedByNewPageWitness :
    resA.id ∉ (updateVisibleResults [resA, resB, resC]
        [resC, resD]).map SearchResult.id :=
  (resultsListReplacedByNewPage [resA, resB, resC] [resC, resD] []).2.2.2
    resA (by decide) (by decide)

/-- The retry loop only ever appends to the accumulated delay list. -/
theorem retryLoop_delays_extend {T : Type} (f : Nat → Except ApiError T) :
    ∀ (r a calls : Nat) (le : Option ApiError) (ds : List Nat),
    ∃ t, (retryLoop f a r le calls ds).delays = ds ++ t := by
  intro r
  induction r with
  | zero =>
    intro a calls le ds
    exact ⟨[], by simp [retryLoop]⟩
  | succ r ih =>
    intro a calls le ds
    cases hfa : f a with
    | ok v => exact ⟨[], by simp [retryLoop, hfa]⟩
    | error e =>
      by_cases hce : isClientErrorCode e.code = true
      · exact ⟨[], by simp [retryLoop, hfa, hce]⟩
      · by_cases hr : 0 < r
        · obtain ⟨t, ht⟩ := ih (a + 1) (calls + 1) (some e) (ds ++ [2 ^ a * 1000])
          refine ⟨[2 ^ a * 1000] ++ t, ?_⟩
          simp only [retryLoop, hfa, hce, hr, if_true, if_false,
            Bool.false_eq_true]
          rw [ht]
          simp
        · obtain ⟨t, ht⟩ := ih (a + 1) (calls + 1) (some e) ds
          refine ⟨t, ?_⟩
          simp only [retryLoop, hfa, hce, hr, if_false, Bool.false_eq_true]
          exact ht

/-- When attempts `a, …, a + k` all fail retryably and at least `k + 2`
attempts remain, the delay recorded after attempt `a + k` sits at position
`ds.length + k` and equals `2 ^ (a + k) * 1000` milliseconds. -/
theorem retryLoop_delay_at {T : Type} (f : Nat → Except ApiError T) :
    ∀ (k a r calls : Nat) (le : Option ApiError) (ds : List Nat),
    (∀ i, a ≤ i → i ≤ a + k →
      ∃ e, f i = Except.error e ∧ isClientErrorCode e.code = false) →
    k + 1 < r →
    (retryLoop f a r le calls ds).delays[ds.length + k]?
      = some (2 ^ (a + k) * 1000) := by
  intro k
  induction k with
  | zero =>
    intro a r calls le ds hfail hr
    obtain ⟨r', rfl⟩ : ∃ r', r = r' + 1 := ⟨r - 1, by omega⟩
    obtain ⟨e, hfa, hce⟩ := hfail a (le_refl a) (by omega)
    have hr' : 0 < r' := by omega
    simp only [retryLoop, hfa, hce, hr', if_true, if_false,
      Bool.false_eq_true]
    obtain ⟨t, ht⟩ := retryLoop_delays_extend f r' (a + 1) (calls + 1)
      (some e) (ds ++ [2 ^ a * 1000])
    rw [ht, List.append_assoc, Nat.add_zero,
      List.getElem?_append_right (le_refl ds.length)]
    simp
  | succ k ih =>
    intro a r calls le ds hfail hr
    obtain ⟨r', rfl⟩ : ∃ r', r = r' + 1 := ⟨r - 1, by omega⟩
    obtain ⟨e, hfa, hce⟩ := hfail a (le_refl a) (by omega)
    have hr' : 0 < r' := by omega
    simp only [retryLoop, hfa, hce, hr', if_true, if_false,
      Bool.false_eq_true]
    have hidx : ds.length + (k + 1) = (ds ++ [2 ^ a * 1000]).length + k := by
      simp
      omega
    have hexp : a + (k + 1) = (a + 1) + k := by omega
    rw [hidx, hexp]
    exact ih (a + 1) r' (calls + 1) (some e) (ds ++ [2 ^ a * 1000])
      (fun i h1 h2 => hfail i (by omega) (by omega)) (by omega)

/-- Counterexample to C1: with a retryable (500-class) failure on every
attempt and `maxRetries = 6`, attempt 5 is not final and the delay inserted
before attempt 6 is `2 ^ 5 = 32` seconds, exceeding the claimed
`min(2 ^ 5 s, 30 s) = 30` seconds — the transport retry helper applies no
30-second cap. -/
theorem retryDelayCapCounterexample :
    (retryRequest always500 6).delays = [2000, 4000, 8000, 16000, 32000] ∧
    (retryRequest always500 6).delays.getD 4 0 ≠ min (2 ^ 5 * 1000) 30000 := by
  decide

/-- C1 (amended): for every operation wrapped by the transport retry helper
and every maximum attempt count, when attempts `1, …, n` fail with retryable
(non-4xx-coded) errors and `n` is not the final attempt, the delay inserted
before attempt `n + 1` equals `2 ^ n` seconds — uncapped (the claimed
30-second ceiling exists only in the react-query `retryDelay` of
`useRetryableQuery`, not in `ApiService.retryRequest`). -/
theorem retryDelayUncapped {T : Type} (f : Nat → Except ApiError T)
    (m : Int) (n : Nat) (hn : 1 ≤ n) (hm : (n : Int) < m)
    (hfail : ∀ i, 1 ≤ i → i ≤ n →
      ∃ e, f i = Except.error e ∧ isClientErrorCode e.code = false) :
    (retryRequest f m).delays[n - 1]? = some (2 ^ n * 1000) := by
  unfold retryRequest
  have h1 : (1 : Nat) + (n - 1) = n := by omega
  have := retryLoop_delay_at f (n - 1) 1 m.toNat 0 none []
    (fun i hi1 hi2 => hfail i hi1 (by omega)) (by omega)
  simpa [h1] using this

/-- Witness for `retryDelayUncapped` at the always-failing 500-class
operation, `maxRetries = 6`, `n = 5`: the fifth delay is 32000 ms. -/
theorem retryDelayUncappedWitness :
    (retryRequest always500 6).delays[5 - 1]? = some (2 ^ 5 * 1000) :=
  retryDelayUncapped always500 6 5 (by norm_num) (by norm_num)
    (fun i _ _ => ⟨serverError500, rfl, by decide⟩)
